import Mathlib

/-!
Verification of the MoltGate x402 payment gateway core.

Shallow embedding of the gateway sources: the policy engine
(packages/policy/src/engine.ts), the middleware pipeline
(apps/gateway/src/middleware/idempotency.ts, replayProtection.ts,
validateSignature.ts, paymentRequired.ts), the proxy header builder
(middleware/proxy.ts), configuration loading (config.ts), the TTL cache
(utils/cache.ts) and the discovery generator (packages/schema, generator).

External library behaviour is embedded as follows: `JSON.stringify` and
`Buffer.toString("base64")` are implemented concretely (`jsonStringify`,
`base64Encode`); the decoding direction (`Buffer.from(base64)` followed by
`JSON.parse`) is passed to the middleware as an explicit `decode` function,
since only its success or failure steers the control flow of the source.
-/

namespace Moltgate

/-- JSON values, as produced by the gateway (numbers restricted to integers;
every number the gateway serialises is an integer). -/
inductive Json where
  | str (s : String)
  | num (n : Int)
  | jbool (b : Bool)
  | null
  | arr (xs : List Json)
  | obj (fields : List (String × Json))

/-- Escape of one character inside a JSON string, per JSON.stringify. -/
def escapeChar (c : Char) : String :=
  if c = '"' then "\\\""
  else if c = '\\' then "\\\\"
  else if c = '\x08' then "\\b"
  else if c = '\x09' then "\\t"
  else if c = '\x0a' then "\\n"
  else if c = '\x0c' then "\\f"
  else if c = '\x0d' then "\\r"
  else if c.toNat < 0x20 then
    let hexDigit (n : Nat) : Char := if n < 10 then Char.ofNat (48 + n) else Char.ofNat (87 + n)
    "\\u00" ++ String.mk [hexDigit (c.toNat / 16), hexDigit (c.toNat % 16)]
  else String.mk [c]

/-- JSON string-literal escaping, per JSON.stringify. -/
def escapeString (s : String) : String :=
  String.join (s.data.map escapeChar)

mutual

/-- JSON serialisation, mirroring JSON.stringify (no spacing). -/
def jsonStringify : Json → String
  | .str s => "\"" ++ escapeString s ++ "\""
  | .num n => toString n
  | .jbool b => if b then "true" else "false"
  | .null => "null"
  | .arr xs => "[" ++ stringifyArr xs ++ "]"
  | .obj fs => "\x7b" ++ stringifyObj fs ++ "\x7d"

/-- Comma-joined serialisation of array elements. -/
def stringifyArr : List Json → String
  | [] => ""
  | [x] => jsonStringify x
  | x :: y :: rest => jsonStringify x ++ "," ++ stringifyArr (y :: rest)

/-- Comma-joined serialisation of object fields, in insertion order. -/
def stringifyObj : List (String × Json) → String
  | [] => ""
  | [(k, v)] => "\"" ++ escapeString k ++ "\":" ++ jsonStringify v
  | (k, v) :: f :: rest =>
      "\"" ++ escapeString k ++ "\":" ++ jsonStringify v ++ "," ++ stringifyObj (f :: rest)

end

/-- UTF-8 encoding of one Unicode scalar value. -/
def utf8Bytes (n : Nat) : List Nat :=
  if n < 0x80 then [n]
  else if n < 0x800 then [0xC0 + n / 64, 0x80 + n % 64]
  else if n < 0x10000 then [0xE0 + n / 4096, 0x80 + (n / 64) % 64, 0x80 + n % 64]
  else [0xF0 + n / 262144, 0x80 + (n / 4096) % 64, 0x80 + (n / 64) % 64, 0x80 + n % 64]

/-- UTF-8 byte sequence of a string. -/
def strUtf8 (s : String) : List Nat :=
  (s.data.map (fun c => utf8Bytes c.toNat)).flatten

/-- Standard base64 alphabet. -/
def b64Char (n : Nat) : Char :=
  "ABCDEFGHIJKLMNOPQRSTUVWXYZabcdefghijklmnopqrstuvwxyz0123456789+/".data.getD n 'A'

/-- Standard base64 encoding with padding, as Buffer.toString("base64"). -/
def base64Encode : List Nat → String
  | [] => ""
  | [a] =>
      String.mk [b64Char (a / 4), b64Char (a % 4 * 16)] ++ "=="
  | [a, b] =>
      String.mk [b64Char (a / 4), b64Char (a % 4 * 16 + b / 16), b64Char (b % 16 * 4)] ++ "="
  | a :: b :: c :: rest =>
      String.mk [b64Char (a / 4), b64Char (a % 4 * 16 + b / 16),
                 b64Char (b % 16 * 4 + c / 64), b64Char (c % 64)] ++ base64Encode rest

/-- toBase64 from paymentRequired.ts: Buffer.from(JSON.stringify(obj)).toString("base64"). -/
def toBase64 (j : Json) : String :=
  base64Encode (strUtf8 (jsonStringify j))

/-- JS String.toUpperCase over the characters (the gateway only upper-cases
ASCII HTTP method names). -/
def strToUpper (s : String) : String := String.mk (s.data.map Char.toUpper)

/-- JS String.toLowerCase over the characters (the gateway only lower-cases
ASCII header names). -/
def strToLower (s : String) : String := String.mk (s.data.map Char.toLower)

/-- JavaScript truthiness of an optional string header value
(undefined and the empty string are falsy). -/
def truthyOpt : Option String → Bool
  | none => false
  | some s => !(s == "")

-- ---------------------------------------------------------------------------
-- Data model (packages/policy/src/types.ts, apps/gateway/src/types.ts)
-- ---------------------------------------------------------------------------

/-- SchemaField from packages/policy/src/types.ts. -/
structure SchemaField where
  type : String
  description : Option String := none
  required : Option Bool := none
  exampleVal : Option Json := none

/-- EndpointSchema from packages/policy/src/types.ts: input.query and
input.body are the two optional keyed maps of the `input` object. -/
structure EndpointSchema where
  method : String
  inputQuery : Option (List (String × SchemaField)) := none
  inputBody : Option (List (String × SchemaField)) := none
  output : List (String × SchemaField)

/-- RoutePolicy from packages/policy/src/types.ts. -/
structure RoutePolicy where
  path : String
  method : String
  scheme : String
  network : String
  asset : String
  maxAmountRequired : String
  payTo : String
  description : String
  mimeType : String
  maxTimeoutSeconds : Nat
  extra : Option Json := none
  outputSchema : Option EndpointSchema := none

/-- PaymentAccept from packages/policy/src/types.ts. -/
structure PaymentAccept where
  scheme : String
  network : String
  maxAmountRequired : String
  resource : String
  description : String
  mimeType : String
  payTo : String
  maxTimeoutSeconds : Nat
  asset : String
  extra : Option Json := none

/-- PaymentRequirements from packages/policy/src/types.ts. -/
structure PaymentRequirements where
  x402Version : Nat
  accepts : List PaymentAccept

/-- PaymentReceipt from packages/policy/src/types.ts. -/
structure PaymentReceipt where
  txHash : Option String := none
  network : String
  payer : String
  amount : String
  timestamp : Nat
  settled : Bool

/-- Validated PaymentPayload from apps/gateway/src/types.ts. -/
structure PaymentPayload where
  x402Version : Int
  scheme : String
  network : String
  asset : String
  payTo : String
  amount : String
  nonce : String
  signature : String
  resource : String
  memo : Option String := none

/-- Result of JSON.parse on a decoded payment-signature header: the JSON
object may miss any field (undefined or null model as none, the empty
string is kept and caught by the required-field check). -/
structure RawPayload where
  x402Version : Option Int := none
  scheme : Option String := none
  network : Option String := none
  asset : Option String := none
  payTo : Option String := none
  amount : Option String := none
  nonce : Option String := none
  signature : Option String := none
  resource : Option String := none
  memo : Option String := none

/-- JSON rendering of a PaymentAccept, field order as in the object literal
of buildAccept (paymentRequired.ts lines 21-32): extra is spread last and
omitted when absent. -/
def PaymentAccept.toJson (a : PaymentAccept) : Json :=
  .obj ([("scheme", .str a.scheme),
         ("network", .str a.network),
         ("maxAmountRequired", .str a.maxAmountRequired),
         ("resource", .str a.resource),
         ("description", .str a.description),
         ("mimeType", .str a.mimeType),
         ("payTo", .str a.payTo),
         ("maxTimeoutSeconds", .num a.maxTimeoutSeconds),
         ("asset", .str a.asset)] ++
        (match a.extra with
         | some e => [("extra", e)]
         | none => []))

/-- JSON rendering of PaymentRequirements, field order as in
buildRequirements (paymentRequired.ts line 36). -/
def PaymentRequirements.toJson (r : PaymentRequirements) : Json :=
  .obj [("x402Version", .num r.x402Version),
        ("accepts", .arr (r.accepts.map PaymentAccept.toJson))]

/-- JSON rendering of a PaymentReceipt, field order as in the receipt
object literals of paymentRequired.ts (txHash omitted when undefined). -/
def PaymentReceipt.toJson (r : PaymentReceipt) : Json :=
  .obj ((match r.txHash with
         | some h => [("txHash", Json.str h)]
         | none => []) ++
        [("network", .str r.network),
         ("payer", .str r.payer),
         ("amount", .str r.amount),
         ("timestamp", .num r.timestamp),
         ("settled", .jbool r.settled)])

-- ---------------------------------------------------------------------------
-- TTL cache (apps/gateway/src/utils/cache.ts)
--
-- The store is the insertion-ordered key map of the JS Map; entries carry the
-- value and its absolute expiry.  The lazy deletion that `get` performs on an
-- expired entry and the periodic sweeper only reclaim memory: they never
-- change the value any `get`/`has` returns, so the embedding keeps the state
-- of `get` pure.  No call site of the gateway overrides the per-call TTL.
-- ---------------------------------------------------------------------------

/-- In-memory TTL cache state. -/
structure TtlCache (α : Type) where
  store : List (String × α × Nat)
  defaultTtlMs : Nat

/-- Map.set semantics: replace in place when the key exists, else append. -/
def storeSet {α : Type} : List (String × α × Nat) → String → α × Nat → List (String × α × Nat)
  | [], key, e => [(key, e)]
  | (k, e0) :: rest, key, e =>
      if k = key then (k, e) :: rest else (k, e0) :: storeSet rest key e

/-- Map.get semantics: first (unique) binding of the key. -/
def storeGet {α : Type} : List (String × α × Nat) → String → Option (α × Nat)
  | [], _ => none
  | (k, e) :: rest, key => if k = key then some e else storeGet rest key

/-- TtlCache.set with the default TTL: expiry is now + defaultTtlMs. -/
def TtlCache.set {α : Type} (c : TtlCache α) (key : String) (value : α) (now : Nat) : TtlCache α :=
  { c with store := storeSet c.store key (value, now + c.defaultTtlMs) }

/-- TtlCache.get: nothing for an absent or expired (now >= expiresAt) entry. -/
def TtlCache.get {α : Type} (c : TtlCache α) (key : String) (now : Nat) : Option α :=
  match storeGet c.store key with
  | none => none
  | some (v, expiresAt) => if now ≥ expiresAt then none else some v

/-- TtlCache.has: this.get(key) !== undefined. -/
def TtlCache.has {α : Type} (c : TtlCache α) (key : String) (now : Nat) : Bool :=
  (c.get key now).isSome

/-- An empty cache with the given default TTL. -/
def TtlCache.empty (α : Type) (defaultTtlMs : Nat) : TtlCache α :=
  { store := [], defaultTtlMs := defaultTtlMs }

-- ---------------------------------------------------------------------------
-- Configuration (apps/gateway/src/config.ts)
-- ---------------------------------------------------------------------------

/-- The process environment: a finite map from variable names to values. -/
def Env : Type := List (String × String)

/-- process.env lookup. -/
def envGet (env : Env) (name : String) : Option String :=
  match env.find? (fun e => e.1 == name) with
  | some e => some e.2
  | none => none

/-- required() from config.ts: process.env[name] ?? fallback, then a throw
when the result is still missing or empty (JS !val). -/
def requiredVar (env : Env) (name : String) (fallback : Option String) : Except String String :=
  let val := match envGet env name with
    | some v => some v
    | none => fallback
  match val with
  | some v => if v = "" then .error ("Missing required env var: " ++ name) else .ok v
  | none => .error ("Missing required env var: " ++ name)

/-- bool() from config.ts: fallback when unset, else raw === "true" || raw === "1". -/
def boolVar (env : Env) (name : String) (fallback : Bool) : Bool :=
  match envGet env name with
  | none => fallback
  | some raw => raw == "true" || raw == "1"

/-- Gateway configuration record (the exported `config` object). -/
structure Config where
  network : String
  facilitatorUrl : String
  payTo : String
  amountMicroStx : String
  mockPayments : Bool
  port : String
  upstreamUrl : String
  baseUrl : Option String
  publicBaseUrl : String

/-- Loading of the `config` object literal from config.ts, field by field in
source order; a throw from required() aborts the module load.  The mock-mode
fallbacks for PAY_TO and AMOUNT_MICROSTX are supplied exactly when
process.env.MOCK_PAYMENTS !== "false".  PORT is kept as its raw string (it
only feeds the listen call and the localhost fallback of publicBaseUrl). -/
def loadConfig (env : Env) : Except String Config := do
  let payToDefault : Option String :=
    if envGet env "MOCK_PAYMENTS" = some "false" then none
    else some "ST1PQHQKV0RJXZFY1DGX8MNSNYVE3VGZJSRTPGZGM"
  let amountDefault : Option String :=
    if envGet env "MOCK_PAYMENTS" = some "false" then none
    else some "100000"
  let payTo ← requiredVar env "PAY_TO" payToDefault
  let amountMicroStx ← requiredVar env "AMOUNT_MICROSTX" amountDefault
  let portStr := (envGet env "PORT").getD "3000"
  pure {
    network := (envGet env "NETWORK").getD "stacks:2147483648"
    facilitatorUrl := (envGet env "FACILITATOR_URL").getD "https://facilitator.stacksx402.com"
    payTo := payTo
    amountMicroStx := amountMicroStx
    mockPayments := boolVar env "MOCK_PAYMENTS" true
    port := portStr
    upstreamUrl := (envGet env "UPSTREAM_URL").getD "http://localhost:4000"
    baseUrl := envGet env "BASE_URL"
    publicBaseUrl :=
      match envGet env "PUBLIC_BASE_URL" with
      | some u => u
      | none =>
        match envGet env "BASE_URL" with
        | some u => u
        | none => "http://localhost:" ++ portStr
  }

-- ---------------------------------------------------------------------------
-- Policy engine (packages/policy/src/engine.ts)
--
-- The engine state is its private `policies` array.
-- ---------------------------------------------------------------------------

/-- PolicyEngine.add: push the items onto the array, no dedup. -/
def engineAdd (policies : List RoutePolicy) (items : List RoutePolicy) : List RoutePolicy :=
  policies ++ items

/-- PolicyEngine.match: first policy whose path equals the path literally and
whose method equals the upper-cased method. -/
def engineMatch (policies : List RoutePolicy) (path method : String) : Option RoutePolicy :=
  policies.find? (fun p => p.path == path && p.method == strToUpper method)

/-- PolicyEngine.all: defensive copy of the array. -/
def engineAll (policies : List RoutePolicy) : List RoutePolicy :=
  policies

/-- PolicyEngine.isProxy. -/
def engineIsProxy (path : String) : Bool :=
  path.startsWith "/proxy/"

/-- findPolicy from apps/gateway/src/policies.ts: engine.match(path, method). -/
def findPolicy (policies : List RoutePolicy) (path method : String) : Option RoutePolicy :=
  engineMatch policies path method

/-- At most one policy per (path, method) pair. -/
def uniquePairs (policies : List RoutePolicy) : Prop :=
  policies.Pairwise (fun a b => ¬(a.path = b.path ∧ a.method = b.method))

-- ---------------------------------------------------------------------------
-- BigInt(string) (ECMAScript StringToBigInt), used by validateSignature.ts
-- ---------------------------------------------------------------------------

/-- JS string whitespace for BigInt trimming (the common subset). -/
def isJsWs (c : Char) : Bool :=
  c = ' ' || c = '\t' || c = '\n' || c = '\r' || c = '\x0b' || c = '\x0c'

/-- Digit value of a character under the given base, when valid. -/
def digitVal (base : Nat) (c : Char) : Option Nat :=
  let v :=
    if '0' ≤ c ∧ c ≤ '9' then some (c.toNat - 48)
    else if 'a' ≤ c ∧ c ≤ 'f' then some (c.toNat - 87)
    else if 'A' ≤ c ∧ c ≤ 'F' then some (c.toNat - 55)
    else none
  match v with
  | some d => if d < base then some d else none
  | none => none

/-- Fold a non-empty all-valid digit sequence into a Nat. -/
def parseDigits (base : Nat) (cs : List Char) : Option Nat :=
  match cs with
  | [] => none
  | _ =>
    cs.foldl (fun acc c =>
      match acc, digitVal base c with
      | some n, some d => some (n * base + d)
      | _, _ => none) (some 0)

/-- StringToBigInt: trim whitespace; empty means 0; a leading 0x/0o/0b selects
the base (no sign allowed); otherwise an optional sign and decimal digits.
None models a thrown SyntaxError. -/
def jsBigIntOfString (s : String) : Option Int :=
  let cs := (s.data.dropWhile isJsWs).reverse.dropWhile isJsWs |>.reverse
  match cs with
  | [] => some 0
  | '0' :: c :: rest =>
    if c = 'x' || c = 'X' then (parseDigits 16 rest).map Int.ofNat
    else if c = 'o' || c = 'O' then (parseDigits 8 rest).map Int.ofNat
    else if c = 'b' || c = 'B' then (parseDigits 2 rest).map Int.ofNat
    else (parseDigits 10 cs).map Int.ofNat
  | '+' :: rest => (parseDigits 10 rest).map Int.ofNat
  | '-' :: rest => (parseDigits 10 rest).map (fun n => -(Int.ofNat n))
  | _ => (parseDigits 10 cs).map Int.ofNat

-- ---------------------------------------------------------------------------
-- Requests, responses, per-request scratch area
-- ---------------------------------------------------------------------------

/-- An incoming request as the middleware sees it: Node delivers the header
map with lower-cased, merged keys. -/
structure Request where
  path : String
  method : String
  protocol : String
  headers : List (String × String)

/-- req.headers[name] lookup. -/
def getHeader (req : Request) (name : String) : Option String :=
  match req.headers.find? (fun e => e.1 == name) with
  | some e => some e.2
  | none => none

/-- The base URL of buildAccept: config.baseUrl ?? req.protocol://req.get("host")
(a missing Host header renders as the string undefined in the template). -/
def requestBase (cfg : Config) (req : Request) : String :=
  match cfg.baseUrl with
  | some b => b
  | none => req.protocol ++ "://" ++ (getHeader req "host").getD "undefined"

/-- A response as finally written: status, headers set via res.set, and the
JSON body handed to res.json. -/
structure Outcome where
  status : Nat
  headers : List (String × String)
  body : Json

/-- The res.locals scratch area shared along the pipeline. -/
structure Locals where
  paymentPayload : Option PaymentPayload := none
  receipt : Option PaymentReceipt := none

/-- The uniform error body res.json(\x7b success: false, error \x7d). -/
def errBody (msg : String) : Json :=
  .obj [("success", .jbool false), ("error", .str msg)]

-- ---------------------------------------------------------------------------
-- buildAccept / buildRequirements (paymentRequired.ts lines 16-37; the same
-- buildAccept is duplicated in validateSignature.ts lines 33-50)
-- ---------------------------------------------------------------------------

/-- buildAccept: render a route policy into the wire offer. -/
def buildAccept (cfg : Config) (req : Request) (policy : RoutePolicy) : PaymentAccept :=
  { scheme := policy.scheme
    network := policy.network
    maxAmountRequired := policy.maxAmountRequired
    resource := requestBase cfg req ++ policy.path
    description := policy.description
    mimeType := policy.mimeType
    payTo := policy.payTo
    maxTimeoutSeconds := policy.maxTimeoutSeconds
    asset := policy.asset
    extra := policy.extra }

/-- buildRequirements: the full 402 body around a single accept entry. -/
def buildRequirements (accept : PaymentAccept) : PaymentRequirements :=
  { x402Version := 2, accepts := [accept] }

-- ---------------------------------------------------------------------------
-- validateSignature middleware (middleware/validateSignature.ts)
-- ---------------------------------------------------------------------------

/-- The PAYMENT_PAYLOAD_REQUIRED_FIELDS list, in source order. -/
def requiredFieldNames : List String :=
  ["x402Version", "scheme", "network", "asset", "payTo", "amount",
   "nonce", "signature", "resource"]

/-- Whether a named required field is undefined, null or the empty string. -/
def fieldMissing (p : RawPayload) (f : String) : Bool :=
  if f = "x402Version" then p.x402Version.isNone
  else
    let v : Option String :=
      if f = "scheme" then p.scheme
      else if f = "network" then p.network
      else if f = "asset" then p.asset
      else if f = "payTo" then p.payTo
      else if f = "amount" then p.amount
      else if f = "nonce" then p.nonce
      else if f = "signature" then p.signature
      else if f = "resource" then p.resource
      else none
    match v with
    | none => true
    | some s => s == ""

/-- The missing-field filter of validateSignature (step 2). -/
def missingFields (p : RawPayload) : List String :=
  requiredFieldNames.filter (fieldMissing p)

/-- The payload object stashed on res.locals once every check passed (all
required fields are then present). -/
def toPayload (p : RawPayload) : PaymentPayload :=
  { x402Version := p.x402Version.getD 0
    scheme := p.scheme.getD ""
    network := p.network.getD ""
    asset := p.asset.getD ""
    payTo := p.payTo.getD ""
    amount := p.amount.getD ""
    nonce := p.nonce.getD ""
    signature := p.signature.getD ""
    resource := p.resource.getD ""
    memo := p.memo }

/-- The offer cross-reference of step 4: mismatch messages in source order
(network, asset, payTo, scheme). -/
def offerMismatches (accept : PaymentAccept) (p : RawPayload) : List String :=
  (if p.network.getD "" ≠ accept.network then
    ["network: expected " ++ accept.network ++ ", got " ++ p.network.getD ""] else []) ++
  (if p.asset.getD "" ≠ accept.asset then
    ["asset: expected " ++ accept.asset ++ ", got " ++ p.asset.getD ""] else []) ++
  (if p.payTo.getD "" ≠ accept.payTo then
    ["payTo: expected " ++ accept.payTo ++ ", got " ++ p.payTo.getD ""] else []) ++
  (if p.scheme.getD "" ≠ accept.scheme then
    ["scheme: expected " ++ accept.scheme ++ ", got " ++ p.scheme.getD ""] else [])

/-- Result of the validateSignature middleware: a 400 rejection, or a pass
carrying the stashed payload (none when no header was sent).  `crash` marks
the uncaught throw of BigInt(accept.maxAmountRequired) on an unparseable
policy minimum (outside the try/catch of the source). -/
inductive VsResult where
  | reject (status : Nat) (error : String)
  | pass (paymentPayload : Option PaymentPayload)
  | crash

/-- validateSignature, with base64+JSON decoding passed in as `decode`
(a failure of either library step lands in the catch). -/
def validateSignature (decode : String → Option RawPayload) (cfg : Config)
    (policies : List RoutePolicy) (req : Request) : VsResult :=
  let raw := getHeader req "payment-signature"
  if !truthyOpt raw then .pass none
  else
    match decode (raw.getD "") with
    | none => .reject 400 "PAYMENT-SIGNATURE is not valid base64-encoded JSON"
    | some payload =>
      let missing := missingFields payload
      if missing ≠ [] then
        .reject 400 ("PAYMENT-SIGNATURE missing required fields: " ++
                     String.intercalate ", " missing)
      else if payload.x402Version ≠ some 2 then
        .reject 400 ("Unsupported x402Version: " ++
                     toString (payload.x402Version.getD 0) ++ " (expected 2)")
      else
        match findPolicy policies req.path req.method with
        | none => .pass (some (toPayload payload))
        | some policy =>
          let accept := buildAccept cfg req policy
          let mismatches := offerMismatches accept payload
          if mismatches ≠ [] then
            .reject 400 ("PAYMENT-SIGNATURE does not match offer: " ++
                         String.intercalate "; " mismatches)
          else
            match jsBigIntOfString accept.maxAmountRequired with
            | none => .crash
            | some offeredAmount =>
              match jsBigIntOfString (payload.amount.getD "") with
              | none => .reject 400 "PAYMENT-SIGNATURE amount is not a valid integer string"
              | some paidAmount =>
                if paidAmount < offeredAmount then
                  .reject 400 ("Insufficient payment: required " ++ accept.maxAmountRequired ++
                               ", got " ++ payload.amount.getD "")
                else .pass (some (toPayload payload))

-- ---------------------------------------------------------------------------
-- Replay protection (middleware/replayProtection.ts)
-- ---------------------------------------------------------------------------

/-- extractNonceKey: nonce plus the memo when truthy, joined by ":" after
the leading "nonce:". -/
def extractNonceKey (p : PaymentPayload) : String :=
  let parts := [p.nonce] ++ (if truthyOpt p.memo then [p.memo.getD ""] else [])
  "nonce:" ++ String.intercalate ":" parts

/-- Result of the replay guard: a 409 rejection, or a pass with the updated
nonce cache. -/
inductive ReplayResult where
  | respond (status : Nat) (error : String)
  | next (nonceCache : TtlCache Bool)

/-- replayProtection over the nonce cache, the raw payment-signature header
and the payload stashed by validateSignature. -/
def replayProtection (nonceCache : TtlCache Bool) (now : Nat)
    (raw : Option String) (payload? : Option PaymentPayload) : ReplayResult :=
  if !truthyOpt raw then .next nonceCache
  else
    match payload? with
    | none => .next nonceCache
    | some payload =>
      let nonceKey := extractNonceKey payload
      if nonceCache.has nonceKey now then
        .respond 409 "Replay detected: payment nonce has already been used"
      else
        .next (nonceCache.set nonceKey true now)

-- ---------------------------------------------------------------------------
-- Payment gate (middleware/paymentRequired.ts)
-- ---------------------------------------------------------------------------

/-- The facilitator verify response body. -/
structure VerifyResp where
  valid : Bool
  payer : String
  amount : String
  network : String
  txHash : Option String := none

/-- The facilitator settle response body. -/
structure SettleResp where
  settled : Bool
  txHash : String
  network : String
  timestamp : Nat

/-- Outcome of the live-mode facilitator exchange, supplied to the gate as an
oracle: a thrown error (network failure or non-2xx) from either call, or the
verify response together with the settle response reached when valid. -/
inductive FacilitatorOutcome where
  | failure (message : String)
  | verified (verification : VerifyResp) (settlement : SettleResp)

/-- Result of the payment gate: a final response, or a pass to the handler
stage carrying the updated scratch area and the headers set on res. -/
inductive GateResult where
  | respond (out : Outcome)
  | next (locals : Locals) (resHeaders : List (String × String))

/-- paymentRequired: 402 when no validated payload, mock receipt in mock
mode, facilitator verify + settle in live mode. -/
def paymentRequired (cfg : Config) (policies : List RoutePolicy) (req : Request)
    (locals : Locals) (fac : FacilitatorOutcome) (nowMs : Nat) : GateResult :=
  match findPolicy policies req.path req.method with
  | none => .next locals []
  | some policy =>
    let accept := buildAccept cfg req policy
    match locals.paymentPayload with
    | none =>
      let requirements := buildRequirements accept
      .respond { status := 402
                 headers := [("payment-required", toBase64 requirements.toJson)]
                 body := requirements.toJson }
    | some payload =>
      if cfg.mockPayments then
        let mockReceipt : PaymentReceipt :=
          { txHash := some ("0x" ++ String.mk (List.replicate 64 '0'))
            network := cfg.network
            payer := "ST1MOCK000000000000000000000000000000000"
            amount := payload.amount
            timestamp := nowMs
            settled := true }
        .next { locals with receipt := some mockReceipt }
              [("payment-response", toBase64 mockReceipt.toJson)]
      else
        match fac with
        | .failure message =>
          .respond { status := 502, headers := [], body := errBody message }
        | .verified verification settlement =>
          if !verification.valid then
            .respond { status := 401, headers := []
                       body := errBody "Payment signature verification failed" }
          else
            let receipt : PaymentReceipt :=
              { txHash := some settlement.txHash
                network := settlement.network
                payer := verification.payer
                amount := verification.amount
                timestamp := settlement.timestamp
                settled := settlement.settled }
            .next { locals with receipt := some receipt }
                  [("payment-response", toBase64 receipt.toJson)]

-- ---------------------------------------------------------------------------
-- Idempotency (middleware/idempotency.ts)
-- ---------------------------------------------------------------------------

/-- A cached response: status, the selected headers and the JSON body. -/
structure CachedResponse where
  status : Nat
  headers : List (String × String)
  body : Json

/-- idempotencyKey(token, method, path). -/
def idempotencyKey (token method path : String) : String :=
  "idem:" ++ strToUpper method ++ ":" ++ path ++ ":" ++ token

/-- The idempotency middleware.  `downstream` is the rest of the pipeline; it
returns the eventual response together with the rest of the gateway state
(of any type σ).  On a hit the stored response is replayed and downstream
never runs; on a miss the res.json wrapper captures a 2xx response (with its
payment-response header when truthy) into the cache before flushing it. -/
def idempotency {σ : Type} (cache : TtlCache CachedResponse) (now : Nat)
    (req : Request) (s0 : σ) (downstream : Unit → Outcome × σ) :
    Outcome × TtlCache CachedResponse × σ :=
  let token := getHeader req "idempotency-key"
  if !truthyOpt token then
    let r := downstream ()
    (r.1, cache, r.2)
  else
    let key := idempotencyKey (token.getD "") req.method req.path
    match cache.get key now with
    | some cached =>
      ({ status := cached.status, headers := cached.headers, body := cached.body },
       cache, s0)
    | none =>
      let r := downstream ()
      let out := r.1
      if 200 ≤ out.status ∧ out.status < 300 then
        let headersToCache : List (String × String) :=
          match getHeaderKV out.headers "payment-response" with
          | some pr => if pr ≠ "" then [("payment-response", pr)] else []
          | none => []
        (out,
         cache.set key { status := out.status, headers := headersToCache, body := out.body } now,
         r.2)
      else (out, cache, r.2)
where
  /-- res.getHeader on the headers set so far. -/
  getHeaderKV (headers : List (String × String)) (name : String) : Option String :=
    match headers.find? (fun e => e.1 == name) with
    | some e => some e.2
    | none => none

-- ---------------------------------------------------------------------------
-- The protected pipeline (index.ts lines 45-48): idempotency →
-- validateSignature → replayProtection → paymentRequired → handler
-- ---------------------------------------------------------------------------

/-- The two shared caches. -/
structure GatewayState where
  idemCache : TtlCache CachedResponse
  nonceCache : TtlCache Bool

/-- The protected stack below idempotency.  A crash of validateSignature
surfaces as the Express default 500.  Headers set by the gate before next()
stay on the final response ahead of the handler headers. -/
def runProtected (decode : String → Option RawPayload) (cfg : Config)
    (policies : List RoutePolicy) (req : Request) (fac : FacilitatorOutcome)
    (now : Nat) (nonceCache : TtlCache Bool) (handler : Locals → Outcome) :
    Outcome × TtlCache Bool :=
  match validateSignature decode cfg policies req with
  | .reject status error => ({ status := status, headers := [], body := errBody error }, nonceCache)
  | .crash => ({ status := 500, headers := [], body := .null }, nonceCache)
  | .pass payload? =>
    let locals : Locals := { paymentPayload := payload?, receipt := none }
    match replayProtection nonceCache now (getHeader req "payment-signature") payload? with
    | .respond status error =>
      ({ status := status, headers := [], body := errBody error }, nonceCache)
    | .next nonceCache' =>
      match paymentRequired cfg policies req locals fac now with
      | .respond out => (out, nonceCache')
      | .next locals' resHeaders =>
        let h := handler locals'
        ({ h with headers := resHeaders ++ h.headers }, nonceCache')

/-- The full protected pipeline including idempotency. -/
def handleRequest (decode : String → Option RawPayload) (cfg : Config)
    (policies : List RoutePolicy) (st : GatewayState) (now : Nat) (req : Request)
    (fac : FacilitatorOutcome) (handler : Locals → Outcome) :
    Outcome × GatewayState :=
  let r := idempotency st.idemCache now req st.nonceCache
    (fun _ => runProtected decode cfg policies req fac now st.nonceCache handler)
  (r.1, { idemCache := r.2.1, nonceCache := r.2.2 })

-- ---------------------------------------------------------------------------
-- Proxy upstream headers (middleware/proxy.ts)
-- ---------------------------------------------------------------------------

/-- A Node request-header value: a single string or a multi-value array. -/
inductive HeaderVal where
  | one (s : String)
  | many (vs : List String)
  deriving DecidableEq

/-- The HOP_BY_HOP set of proxy.ts. -/
def HOP_BY_HOP : List String :=
  ["connection", "keep-alive", "proxy-authenticate", "proxy-authorization",
   "te", "trailer", "transfer-encoding", "upgrade", "host", "content-length"]

/-- The PAYMENT_HEADERS set of proxy.ts. -/
def PAYMENT_HEADERS : List String :=
  ["payment-required", "payment-signature", "payment-response"]

/-- JS object assignment out[key] = value: replace every binding of the key
in place, else append. -/
def setKV (out : List (String × String)) (k v : String) : List (String × String) :=
  if out.any (fun e => e.1 == k) then
    out.map (fun e => if e.1 == k then (k, v) else e)
  else out ++ [(k, v)]

/-- One iteration of the buildUpstreamHeaders loop. -/
def upstreamStep (out : List (String × String)) (kv : String × HeaderVal) :
    List (String × String) :=
  let lower := strToLower kv.1
  if HOP_BY_HOP.contains lower then out
  else if PAYMENT_HEADERS.contains lower then out
  else match kv.2 with
    | .one s => setKV out kv.1 s
    | .many vs => setKV out kv.1 (String.intercalate ", " vs)

/-- buildUpstreamHeaders: iterate the incoming header entries in order. -/
def buildUpstreamHeaders (incoming : List (String × HeaderVal)) :
    List (String × String) :=
  incoming.foldl upstreamStep []

/-- The string a header value contributes when it is forwarded. -/
def headerValJoin : HeaderVal → String
  | .one s => s
  | .many vs => String.intercalate ", " vs

-- ---------------------------------------------------------------------------
-- Discovery generator (packages/schema generator)
-- ---------------------------------------------------------------------------

/-- One paid endpoint in the discovery document. -/
structure X402AcceptEntry where
  network : String
  resource : String
  scheme : String
  payTo : String
  maxAmountRequired : String
  asset : String
  description : String
  mimeType : String
  maxTimeoutSeconds : Nat
  outputSchema : EndpointSchema

/-- Top-level x402scan discovery document. -/
structure X402Discovery where
  x402Version : Nat
  name : String
  description : String
  image : String
  url : String
  accepts : List X402AcceptEntry

/-- Generator options. -/
structure DiscoveryOptions where
  name : Option String := none
  description : Option String := none
  image : Option String := none
  publicBaseUrl : String

/-- publicBaseUrl.replace of the trailing-slash run with the empty string. -/
def stripTrailingSlashes (s : String) : String :=
  String.mk ((s.data.reverse.dropWhile (fun c => c = '/')).reverse)

/-- The fallback outputSchema synthesized when the policy carries none. -/
def fallbackSchema (p : RoutePolicy) : EndpointSchema :=
  { method := p.method
    inputQuery := none
    inputBody := none
    output := [("data", { type := "object", description := some "Response payload" })] }

/-- policyToAccept: one discovery entry per policy. -/
def policyToAccept (p : RoutePolicy) (publicBaseUrl : String) : X402AcceptEntry :=
  { network := "stacks"
    resource := stripTrailingSlashes publicBaseUrl ++ p.path
    scheme := p.scheme
    payTo := p.payTo
    maxAmountRequired := p.maxAmountRequired
    asset := p.asset
    description := p.description
    mimeType := p.mimeType
    maxTimeoutSeconds := p.maxTimeoutSeconds
    outputSchema := p.outputSchema.getD (fallbackSchema p) }

/-- generateDiscovery over the engine state (engine.all()). -/
def generateDiscovery (policies : List RoutePolicy) (opts : DiscoveryOptions) :
    X402Discovery :=
  let publicBaseUrl := opts.publicBaseUrl
  { x402Version := 2
    name := opts.name.getD "moltgate"
    description := opts.description.getD "x402 payment gateway"
    image := opts.image.getD (stripTrailingSlashes publicBaseUrl ++ "/logo.png")
    url := publicBaseUrl
    accepts := (engineAll policies).map (fun p => policyToAccept p publicBaseUrl) }

/-- Modelled from the spec: the short token form of a chain identifier is
the text before the colon of the CAIP-2-style id, e.g. "stacks" for
"stacks:2147483648".  The discovery section of the spec states the network
field of each entry is this normalization of the policy chain identifier. -/
def specNetworkShortToken (network : String) : String :=
  String.mk (network.data.takeWhile (fun c => c ≠ ':'))

-- ---------------------------------------------------------------------------
-- The gateway startup registration (apps/gateway/src/policies.ts), with the
-- PolicyBuilder defaults (scheme "exact", mimeType "application/json",
-- maxTimeoutSeconds 60) already applied by build()
-- ---------------------------------------------------------------------------

/-- The echo route policy. -/
def echoPolicy (cfg : Config) : RoutePolicy :=
  { path := "/v1/premium/echo"
    method := "GET"
    scheme := "exact"
    network := cfg.network
    asset := "STX"
    maxAmountRequired := cfg.amountMicroStx
    payTo := cfg.payTo
    description := "Premium echo endpoint — returns your message (x402 protected)"
    mimeType := "application/json"
    maxTimeoutSeconds := 60
    outputSchema := some
      { method := "GET"
        inputQuery := some [("msg",
          { type := "string", required := some false
            description := some "Message to echo back"
            exampleVal := some (.str "hello world") })]
        output := [("echo", { type := "string", description := some "The echoed message" }),
                   ("ts", { type := "string", description := some "ISO-8601 timestamp of the response" })] } }

/-- The proxied weather route policy. -/
def weatherPolicy (cfg : Config) : RoutePolicy :=
  { path := "/proxy/api/weather"
    method := "GET"
    scheme := "exact"
    network := cfg.network
    asset := "STX"
    maxAmountRequired := "10"
    payTo := cfg.payTo
    description := "Weather lookup — proxied upstream, 10 µSTX per call"
    mimeType := "application/json"
    maxTimeoutSeconds := 60
    outputSchema := some
      { method := "GET"
        inputQuery := some [("city",
          { type := "string", required := some true
            description := some "City name to look up weather for"
            exampleVal := some (.str "Tokyo") })]
        output := [("city", { type := "string", description := some "Resolved city name" }),
                   ("tempC", { type := "number", description := some "Temperature in Celsius" }),
                   ("tempF", { type := "number", description := some "Temperature in Fahrenheit" }),
                   ("humidity", { type := "number", description := some "Humidity percentage" }),
                   ("conditions", { type := "string", description := some "Weather conditions (sunny, cloudy, rainy, snowy, windy)" }),
                   ("source", { type := "string", description := some "Data source identifier" })] } }

/-- The proxied summarize route policy. -/
def summarizePolicy (cfg : Config) : RoutePolicy :=
  { path := "/proxy/api/summarize"
    method := "POST"
    scheme := "exact"
    network := cfg.network
    asset := "STX"
    maxAmountRequired := "50"
    payTo := cfg.payTo
    description := "Text summarization — proxied upstream, 50 µSTX per call"
    mimeType := "application/json"
    maxTimeoutSeconds := 60
    outputSchema := some
      { method := "POST"
        inputBody := some [("text",
          { type := "string", required := some true
            description := some "Text content to summarize"
            exampleVal := some (.str "MoltGate is an open-source x402 payment gateway...") })]
        output := [("summary", { type := "string", description := some "Truncated summary of the input text" }),
                   ("wordCount", { type := "number", description := some "Number of words in the input" }),
                   ("charCount", { type := "number", description := some "Number of characters in the input" }),
                   ("source", { type := "string", description := some "Data source identifier" })] } }

/-- The engine state after the single engine.add(...) of policies.ts. -/
def gatewayPolicies (cfg : Config) : List RoutePolicy :=
  engineAdd [] [echoPolicy cfg, weatherPolicy cfg, summarizePolicy cfg]

-- ---------------------------------------------------------------------------
-- Helper definitions for the analysis (not part of the source)
-- ---------------------------------------------------------------------------

/-- Split a character list at its first colon. -/
def splitColon : List Char → List Char × Option (List Char)
  | [] => ([], none)
  | c :: rest =>
    if c = ':' then ([], some rest)
    else
      let r := splitColon rest
      (c :: r.1, r.2)

/-- Whether the proxy forwards a header of this name. -/
def passes (k : String) : Bool :=
  !(HOP_BY_HOP.contains (strToLower k)) && !(PAYMENT_HEADERS.contains (strToLower k))

/-- The forwarded entry a single incoming header contributes, if any. -/
def passEntry (kv : String × HeaderVal) : Option (String × String) :=
  if passes kv.1 then some (kv.1, headerValJoin kv.2) else none

-- ---------------------------------------------------------------------------
-- Concrete instances used by witnesses and counterexamples
-- ---------------------------------------------------------------------------

/-- A mock-mode configuration. -/
def mockCfg : Config :=
  { network := "stacks:2147483648"
    facilitatorUrl := "https://facilitator.stacksx402.com"
    payTo := "ST1PQHQKV0RJXZFY1DGX8MNSNYVE3VGZJSRTPGZGM"
    amountMicroStx := "100000"
    mockPayments := true
    port := "3000"
    upstreamUrl := "http://localhost:4000"
    baseUrl := some "http://localhost:3000"
    publicBaseUrl := "http://localhost:3000" }

/-- A sample route policy. -/
def samplePolicy : RoutePolicy :=
  { path := "/v1/premium/echo"
    method := "GET"
    scheme := "exact"
    network := "stacks:2147483648"
    asset := "STX"
    maxAmountRequired := "100000"
    payTo := "ST1PQHQKV0RJXZFY1DGX8MNSNYVE3VGZJSRTPGZGM"
    description := "Premium echo endpoint"
    mimeType := "application/json"
    maxTimeoutSeconds := 60 }

/-- A policy priced above 2^64, for the precision witness. -/
def bigPolicy : RoutePolicy :=
  { samplePolicy with path := "/big", maxAmountRequired := "18446744073709551616" }

/-- A policy on a non-Stacks chain identifier. -/
def ethPolicy : RoutePolicy :=
  { samplePolicy with path := "/x", network := "ethereum:1", asset := "ETH" }

/-- A decoded payload paying 2^64 + 1 against bigPolicy. -/
def bigRaw : RawPayload :=
  { x402Version := some 2
    scheme := some "exact"
    network := some "stacks:2147483648"
    asset := some "STX"
    payTo := some "ST1PQHQKV0RJXZFY1DGX8MNSNYVE3VGZJSRTPGZGM"
    amount := some "18446744073709551617"
    nonce := some "n1"
    signature := some "sig"
    resource := some "http://localhost:3000/big" }

/-- A request to /big carrying an (encoded) payment-signature header. -/
def bigReq : Request :=
  { path := "/big", method := "GET", protocol := "http"
    headers := [("payment-signature", "encoded")] }

/-- A decode oracle returning bigRaw for the header of bigReq. -/
def bigDecode : String → Option RawPayload :=
  fun s => if s = "encoded" then some bigRaw else none

/-- A payload whose nonce contains a colon and that has no memo. -/
def payloadColonNonce : PaymentPayload :=
  { x402Version := 2, scheme := "exact", network := "stacks:2147483648"
    asset := "STX", payTo := "SP1", amount := "100000", nonce := "a:b"
    signature := "sig", resource := "r", memo := none }

/-- A payload with nonce "a" and memo "b". -/
def payloadSplitMemo : PaymentPayload :=
  { payloadColonNonce with nonce := "a", memo := some "b" }

-- ---------------------------------------------------------------------------
-- Shared lemmas
-- ---------------------------------------------------------------------------

/-- String.intercalate on a singleton. -/
theorem intercalate_single (a : String) : String.intercalate ":" [a] = a := rfl

/-- String.intercalate on a pair. -/
theorem intercalate_pair (a b : String) :
    String.intercalate ":" [a, b] = a ++ ":" ++ b := rfl

/-- extractNonceKey by cases on the memo. -/
theorem extractNonceKey_eq (p : PaymentPayload) :
    extractNonceKey p =
      match p.memo with
      | some m => if m = "" then "nonce:" ++ p.nonce else "nonce:" ++ p.nonce ++ ":" ++ m
      | none => "nonce:" ++ p.nonce := by
  unfold extractNonceKey
  match h : p.memo with
  | none => simp [h, truthyOpt, intercalate_single]
  | some m =>
    by_cases hm : m = ""
    · simp [h, hm, truthyOpt, intercalate_single]
    · simp [h, hm, truthyOpt, intercalate_pair, String.append_assoc]

/-- splitColon of a colon-free list. -/
theorem splitColon_of_not_mem (as : List Char) (h : ':' ∉ as) :
    splitColon as = (as, none) := by
  induction as with
  | nil => rfl
  | cons c rest ih =>
    simp only [List.mem_cons, not_or] at h
    simp [splitColon, Ne.symm h.1, ih h.2]

/-- splitColon recovers the two parts around the first colon. -/
theorem splitColon_append (as bs : List Char) (h : ':' ∉ as) :
    splitColon (as ++ ':' :: bs) = (as, some bs) := by
  induction as with
  | nil => simp [splitColon]
  | cons c rest ih =>
    simp only [List.mem_cons, not_or] at h
    simp [splitColon, Ne.symm h.1, ih h.2]

-- ---------------------------------------------------------------------------
-- C7
-- ---------------------------------------------------------------------------

/-- C7: configuration loading.  The claim says live mode (mock payments
disabled) fails at startup without PAY_TO or AMOUNT_MICROSTX.  The code only
withholds the fallback when MOCK_PAYMENTS is exactly the string "false"
while live mode is entered for every value other than "true"/"1": with
MOCK_PAYMENTS=0 and both variables absent the gateway loads successfully in
live mode on the mock defaults, contradicting the doc comment of config.ts.
This theorem evaluates the embedded loader at the failing input, and shows
the two behaviours the claim does describe correctly: live mode via "false"
fails naming PAY_TO, and mock mode succeeds on the defaults. -/
theorem claim_C7 :
    (loadConfig [("MOCK_PAYMENTS", "0")]).toOption.map
        (fun c => (c.mockPayments, c.payTo, c.amountMicroStx)) =
      some (false, "ST1PQHQKV0RJXZFY1DGX8MNSNYVE3VGZJSRTPGZGM", "100000") ∧
    loadConfig [("MOCK_PAYMENTS", "false")] =
      Except.error "Missing required env var: PAY_TO" ∧
    (loadConfig []).toOption.map (fun c => c.mockPayments) = some true := by
  exact ⟨rfl, rfl, rfl⟩

-- ---------------------------------------------------------------------------
-- C6
-- ---------------------------------------------------------------------------

/-- C6 counterexample: the nonce-key function is not injective on
(nonce, memo) tuples.  The payload with nonce "a:b" and no memo and the
payload with nonce "a" and memo "b" are distinct tuples with the same
replay-cache key "nonce:a:b". -/
theorem claim_C6_counterexample :
    extractNonceKey payloadColonNonce = extractNonceKey payloadSplitMemo ∧
    (payloadColonNonce.nonce, payloadColonNonce.memo) ≠
      (payloadSplitMemo.nonce, payloadSplitMemo.memo) := by
  exact ⟨rfl, by decide⟩

-- ---------------------------------------------------------------------------
-- C9
-- ---------------------------------------------------------------------------

/-- C9 counterexample: add never checks for duplicates, so a sequence of
add operations can leave two policies with the same (path, method) pair in
the registry. -/
theorem claim_C9_counterexample :
    ¬ uniquePairs (engineAdd (engineAdd [] [samplePolicy]) [samplePolicy]) := by
  intro h
  have h2 := (List.pairwise_cons.mp h).1 samplePolicy (by simp)
  exact h2 ⟨rfl, rfl⟩

/-- The data of the colon literal. -/
theorem colon_data : (":" : String).data = [':'] := rfl

/-- Lookup after setting the same key. -/
theorem storeGet_storeSet_self {α : Type} (store : List (String × α × Nat))
    (k : String) (e : α × Nat) : storeGet (storeSet store k e) k = some e := by
  induction store with
  | nil => simp [storeSet, storeGet]
  | cons kv rest ih =>
    obtain ⟨k0, e0⟩ := kv
    by_cases h : k0 = k
    · simp [storeSet, storeGet, h]
    · simp [storeSet, storeGet, h, ih]

/-- Lookup after setting a different key. -/
theorem storeGet_storeSet_ne {α : Type} (store : List (String × α × Nat))
    (k k' : String) (e : α × Nat) (h : k ≠ k') :
    storeGet (storeSet store k e) k' = storeGet store k' := by
  induction store with
  | nil => simp [storeSet, storeGet, h]
  | cons kv rest ih =>
    obtain ⟨k0, e0⟩ := kv
    by_cases h0 : k0 = k
    · simp [storeSet, storeGet, h0, h]
    · simp [storeSet, storeGet, h0, ih]

/-- get after set on the same key: the value until the expiry. -/
theorem TtlCache.get_set_self {α : Type} (c : TtlCache α) (k : String) (v : α)
    (now now₂ : Nat) :
    (c.set k v now).get k now₂ =
      if now₂ ≥ now + c.defaultTtlMs then none else some v := by
  simp [TtlCache.set, TtlCache.get, storeGet_storeSet_self]

/-- The nonce key determines nonce and memo once nonces are colon-free and
memos, when present, are non-empty. -/
theorem extractNonceKey_inj (p q : PaymentPayload)
    (hp : ':' ∉ p.nonce.data) (hq : ':' ∉ q.nonce.data)
    (hpm : p.memo ≠ some "") (hqm : q.memo ≠ some "")
    (hkey : extractNonceKey p = extractNonceKey q) :
    p.nonce = q.nonce ∧ p.memo = q.memo := by
  have hkp := extractNonceKey_eq p
  have hkq := extractNonceKey_eq q
  cases hpmem : p.memo with
  | none =>
    simp only [hpmem] at hkp
    cases hqmem : q.memo with
    | none =>
      simp only [hqmem] at hkq
      rw [hkp, hkq] at hkey
      have hd := congrArg String.data hkey
      simp only [String.data_append] at hd
      have hd2 := List.append_cancel_left hd
      exact ⟨String.ext hd2, rfl⟩
    | some m2 =>
      have hm2 : ¬ m2 = "" := fun h => hqm (by rw [hqmem, h])
      simp only [hqmem, if_neg hm2] at hkq
      rw [hkp, hkq] at hkey
      have hd := congrArg String.data hkey
      simp only [String.data_append, colon_data, List.append_assoc,
                 List.singleton_append] at hd
      have hd2 := List.append_cancel_left hd
      have hsp := congrArg splitColon hd2
      rw [splitColon_of_not_mem p.nonce.data hp,
          splitColon_append q.nonce.data m2.data hq] at hsp
      exact absurd (congrArg Prod.snd hsp) (by simp)
  | some m1 =>
    have hm1 : ¬ m1 = "" := fun h => hpm (by rw [hpmem, h])
    simp only [hpmem, if_neg hm1] at hkp
    cases hqmem : q.memo with
    | none =>
      simp only [hqmem] at hkq
      rw [hkp, hkq] at hkey
      have hd := congrArg String.data hkey
      simp only [String.data_append, colon_data, List.append_assoc,
                 List.singleton_append] at hd
      have hd2 := List.append_cancel_left hd
      have hsp := congrArg splitColon hd2
      rw [splitColon_append p.nonce.data m1.data hp,
          splitColon_of_not_mem q.nonce.data hq] at hsp
      exact absurd (congrArg Prod.snd hsp) (by simp)
    | some m2 =>
      have hm2 : ¬ m2 = "" := fun h => hqm (by rw [hqmem, h])
      simp only [hqmem, if_neg hm2] at hkq
      rw [hkp, hkq] at hkey
      have hd := congrArg String.data hkey
      simp only [String.data_append, colon_data, List.append_assoc,
                 List.singleton_append] at hd
      have hd2 := List.append_cancel_left hd
      have hsp := congrArg splitColon hd2
      rw [splitColon_append p.nonce.data m1.data hp,
          splitColon_append q.nonce.data m2.data hq] at hsp
      have hn := congrArg Prod.fst hsp
      have hm := congrArg Prod.snd hsp
      simp only [] at hn hm
      refine ⟨String.ext hn, ?_⟩
      exact congrArg some (String.ext (Option.some.inj hm))

/-- C6 amended: the nonce-key function is injective on (nonce, memo) tuples
whose nonce is colon-free and whose memo, when present, is non-empty (the
key joins the parts with a colon, so a colon inside the nonce can collide
with a nonce-memo split, and an empty memo is dropped); for two such
distinct tuples the keys differ, and a payment with the second tuple is not
rejected as a replay after the first settled. -/
theorem claim_C6_amended (p q : PaymentPayload)
    (hp : ':' ∉ p.nonce.data) (hq : ':' ∉ q.nonce.data)
    (hpm : p.memo ≠ some "") (hqm : q.memo ≠ some "")
    (hne : (p.nonce, p.memo) ≠ (q.nonce, q.memo)) :
    extractNonceKey p ≠ extractNonceKey q ∧
    ∀ (ttl now now₂ : Nat) (raw : Option String), truthyOpt raw = true →
      replayProtection ((TtlCache.empty Bool ttl).set (extractNonceKey p) true now)
          now₂ raw (some q) =
        .next (((TtlCache.empty Bool ttl).set (extractNonceKey p) true now).set
          (extractNonceKey q) true now₂) := by
  have hinj : extractNonceKey p ≠ extractNonceKey q := by
    intro hkey
    obtain ⟨h1, h2⟩ := extractNonceKey_inj p q hp hq hpm hqm hkey
    exact hne (by rw [h1, h2])
  refine ⟨hinj, ?_⟩
  intro ttl now now₂ raw hraw
  have hget : (((TtlCache.empty Bool ttl).set (extractNonceKey p) true now)).get
      (extractNonceKey q) now₂ = none := by
    simp only [TtlCache.set, TtlCache.get, TtlCache.empty]
    rw [storeGet_storeSet_ne _ _ _ _ hinj]
    simp [storeGet]
  simp [replayProtection, hraw, TtlCache.has, hget]

/-- C6 witness: the amended injectivity at two concrete colon-free payloads
differing only in the memo. -/
theorem claim_C6_amended_witness :
    extractNonceKey { payloadColonNonce with nonce := "n1", memo := some "m1" } ≠
      extractNonceKey { payloadColonNonce with nonce := "n1", memo := some "m2" } :=
  (claim_C6_amended
    { payloadColonNonce with nonce := "n1", memo := some "m1" }
    { payloadColonNonce with nonce := "n1", memo := some "m2" }
    (by decide) (by decide) (by decide) (by decide) (by decide)).1

/-- C9 amended: the engine itself does not enforce uniqueness (add appends
unchecked, see the counterexample), but the startup registration of the
gateway registers pairwise-distinct (path, method) policies, and on any
duplicate-free registry match is unambiguous: it returns exactly the
matching policy. -/
theorem claim_C9_amended :
    (∀ cfg : Config, uniquePairs (gatewayPolicies cfg)) ∧
    (∀ (policies : List RoutePolicy) (path method : String) (p : RoutePolicy),
      uniquePairs policies → p ∈ policies →
      p.path = path → p.method = strToUpper method →
      engineMatch policies path method = some p) := by
  constructor
  · intro cfg
    simp only [gatewayPolicies, engineAdd, List.nil_append, uniquePairs]
    refine List.pairwise_cons.mpr ⟨?_, List.pairwise_cons.mpr
      ⟨?_, List.pairwise_cons.mpr ⟨?_, List.Pairwise.nil⟩⟩⟩
    · intro b hb
      rcases List.mem_cons.mp hb with rfl | hb
      · exact fun hcon => absurd hcon.1
          (by decide : ¬("/v1/premium/echo" = "/proxy/api/weather"))
      · rcases List.mem_cons.mp hb with rfl | hb
        · exact fun hcon => absurd hcon.1
            (by decide : ¬("/v1/premium/echo" = "/proxy/api/summarize"))
        · exact absurd hb (List.not_mem_nil b)
    · intro b hb
      rcases List.mem_cons.mp hb with rfl | hb
      · exact fun hcon => absurd hcon.1
          (by decide : ¬("/proxy/api/weather" = "/proxy/api/summarize"))
      · exact absurd hb (List.not_mem_nil b)
    · intro b hb
      exact absurd hb (List.not_mem_nil b)
  · intro policies path method p
    induction policies with
    | nil => intro _ hp _ _; exact absurd hp (List.not_mem_nil p)
    | cons q rest ih =>
      intro hu hp hpath hmeth
      rw [uniquePairs, List.pairwise_cons] at hu
      rcases List.mem_cons.mp hp with rfl | hmem
      · have hpt : (p.path == path && p.method == strToUpper method) = true := by
          simp [hpath, hmeth]
        unfold engineMatch
        exact List.find?_cons_of_pos rest hpt
      · have hqf : (q.path == path && q.method == strToUpper method) = false := by
          by_cases hqp : q.path = path
          · by_cases hqm : q.method = strToUpper method
            · exact absurd ⟨hqp.trans hpath.symm, hqm.trans hmeth.symm⟩ (hu.1 p hmem)
            · simp [hqm]
          · simp [hqp]
        unfold engineMatch at ih ⊢
        rw [List.find?_cons_of_neg rest (by simp [hqf])]
        exact ih hu.2 hmem hpath hmeth

/-- C9 witness: match on the concrete gateway registration returns the
weather policy for its pair. -/
theorem claim_C9_amended_witness :
    engineMatch (gatewayPolicies mockCfg) "/proxy/api/weather" "get" =
      some (weatherPolicy mockCfg) :=
  (claim_C9_amended).2 (gatewayPolicies mockCfg) "/proxy/api/weather" "get"
    (weatherPolicy mockCfg) ((claim_C9_amended).1 mockCfg)
    (by simp [gatewayPolicies, engineAdd]) rfl (by decide)

-- ---------------------------------------------------------------------------
-- C8
-- ---------------------------------------------------------------------------

/-- C8 counterexample: the network field of a discovery entry is the
constant "stacks", not the short token form of the policy chain identifier:
for a policy on "ethereum:1" the entry still says "stacks" while the short
token form of the identifier is "ethereum". -/
theorem claim_C8_counterexample :
    (policyToAccept ethPolicy "https://gw.example.com").network ≠
      specNetworkShortToken ethPolicy.network := by
  decide

/-- C8 amended: the discovery document carries exactly one accept entry per
registered policy in registration order; each entry has the constant
network "stacks" (which coincides with the short token form only for
Stacks chain identifiers), its resource is the public base URL with
trailing slashes stripped concatenated with the policy path, and a policy
without an explicit schema gets the fallback outputSchema with the policy
method, empty input and the single output field data of type object. -/
theorem claim_C8_amended (policies : List RoutePolicy) (opts : DiscoveryOptions)
    (p : RoutePolicy) (base : String) :
    (generateDiscovery policies opts).accepts =
      policies.map (fun q => policyToAccept q opts.publicBaseUrl) ∧
    (policyToAccept p base).network = "stacks" ∧
    (policyToAccept p base).resource = stripTrailingSlashes base ++ p.path ∧
    (p.outputSchema = none → (policyToAccept p base).outputSchema = fallbackSchema p) := by
  refine ⟨rfl, rfl, rfl, fun h => ?_⟩
  simp [policyToAccept, h]

/-- C8 witness: the fallback schema branch at a schema-less policy. -/
theorem claim_C8_amended_witness :
    (policyToAccept ethPolicy "https://gw.example.com/").outputSchema =
      fallbackSchema ethPolicy :=
  (claim_C8_amended [] { publicBaseUrl := "x" } ethPolicy
    "https://gw.example.com/").2.2.2 rfl

-- ---------------------------------------------------------------------------
-- C4
-- ---------------------------------------------------------------------------

/-- setKV appends when the key is fresh. -/
theorem setKV_fresh (out : List (String × String)) (k v : String)
    (h : ∀ e ∈ out, e.1 ≠ k) : setKV out k v = out ++ [(k, v)] := by
  unfold setKV
  have hany : out.any (fun e => e.1 == k) = false := by
    rw [List.any_eq_false]
    intro e he
    simpa using h e he
  simp [hany]

/-- The header loop over a duplicate-free header map with a fresh
accumulator is filtering plus joining. -/
theorem buildUpstream_go (incoming : List (String × HeaderVal)) :
    ∀ acc : List (String × String),
    (∀ e ∈ acc, ∀ kv ∈ incoming, e.1 ≠ kv.1) →
    (incoming.map Prod.fst).Nodup →
    incoming.foldl upstreamStep acc = acc ++ incoming.filterMap passEntry := by
  induction incoming with
  | nil => intro acc _ _; simp
  | cons kv rest ih =>
    intro acc hacc hnodup
    rw [List.map_cons, List.nodup_cons] at hnodup
    rw [List.foldl_cons, List.filterMap_cons]
    have hfresh : ∀ e ∈ acc, e.1 ≠ kv.1 :=
      fun e he => hacc e he kv (List.mem_cons_self _ _)
    have hacc2 : ∀ e ∈ acc, ∀ kv2 ∈ rest, e.1 ≠ kv2.1 :=
      fun e he kv2 hkv2 => hacc e he kv2 (List.mem_cons_of_mem _ hkv2)
    by_cases hp1 : strToLower kv.1 ∈ HOP_BY_HOP
    · have hstep : upstreamStep acc kv = acc := by
        simp [upstreamStep, hp1]
      have hpe : passEntry kv = none := by
        simp [passEntry, passes, hp1]
      rw [hstep, ih acc hacc2 hnodup.2, hpe]
    · by_cases hp2 : strToLower kv.1 ∈ PAYMENT_HEADERS
      · have hstep : upstreamStep acc kv = acc := by
          simp [upstreamStep, hp1, hp2]
        have hpe : passEntry kv = none := by
          simp [passEntry, passes, hp2]
        rw [hstep, ih acc hacc2 hnodup.2, hpe]
      · have hstep : upstreamStep acc kv = acc ++ [(kv.1, headerValJoin kv.2)] := by
          cases hv : kv.2 with
          | one s =>
            simp only [upstreamStep, hv]
            rw [if_neg (by simpa using hp1), if_neg (by simpa using hp2)]
            exact setKV_fresh acc kv.1 s hfresh
          | many vs =>
            simp only [upstreamStep, hv]
            rw [if_neg (by simpa using hp1), if_neg (by simpa using hp2)]
            exact setKV_fresh acc kv.1 (String.intercalate ", " vs) hfresh
        have hpe : passEntry kv = some (kv.1, headerValJoin kv.2) := by
          simp [passEntry, passes, hp1, hp2]
        have hacc3 : ∀ e ∈ acc ++ [(kv.1, headerValJoin kv.2)], ∀ kv2 ∈ rest, e.1 ≠ kv2.1 := by
          intro e he kv2 hkv2
          rcases List.mem_append.mp he with he | he
          · exact hacc2 e he kv2 hkv2
          · obtain rfl := List.mem_singleton.mp he
            intro hEq
            exact hnodup.1 (hEq ▸ List.mem_map_of_mem Prod.fst hkv2)
        rw [hstep, ih (acc ++ [(kv.1, headerValJoin kv.2)]) hacc3 hnodup.2, hpe]
        simp

/-- C4: under a duplicate-free incoming header map (as Node delivers it),
the upstream header map built by the proxy carries no header whose
lower-cased name is hop-by-hop (including host and content-length) or one
of the three payment headers, and every other header is passed through with
multi-value headers joined by comma-space. -/
theorem claim_C4 (incoming : List (String × HeaderVal))
    (hnodup : (incoming.map Prod.fst).Nodup) :
    (∀ e ∈ buildUpstreamHeaders incoming,
      strToLower e.1 ∉ HOP_BY_HOP ∧ strToLower e.1 ∉ PAYMENT_HEADERS) ∧
    (∀ kv ∈ incoming,
      strToLower kv.1 ∉ HOP_BY_HOP → strToLower kv.1 ∉ PAYMENT_HEADERS →
      (kv.1, headerValJoin kv.2) ∈ buildUpstreamHeaders incoming) := by
  have hb : buildUpstreamHeaders incoming = incoming.filterMap passEntry :=
    buildUpstream_go incoming [] (by simp) hnodup
  constructor
  · intro e he
    rw [hb] at he
    rcases List.mem_filterMap.mp he with ⟨kv, _, hpe⟩
    unfold passEntry at hpe
    by_cases hp : passes kv.1 = true
    · rw [if_pos hp] at hpe
      obtain rfl := Option.some.inj hpe
      have h12 : strToLower kv.1 ∉ HOP_BY_HOP ∧ strToLower kv.1 ∉ PAYMENT_HEADERS := by
        simpa [passes] using hp
      exact h12
    · rw [if_neg hp] at hpe
      cases hpe
  · intro kv hkv h1 h2
    rw [hb]
    refine List.mem_filterMap.mpr ⟨kv, hkv, ?_⟩
    have hp : passes kv.1 = true := by simp [passes, h1, h2]
    simp [passEntry, hp]

/-- C4 witness: a concrete header map where host and payment-signature are
stripped and a custom multi-value header passes joined. -/
theorem claim_C4_witness :
    ("x-custom", "a, b") ∈ buildUpstreamHeaders
      [("host", .one "gw"), ("payment-signature", .one "sig"),
       ("x-custom", .many ["a", "b"])] :=
  (claim_C4 [("host", .one "gw"), ("payment-signature", .one "sig"),
             ("x-custom", .many ["a", "b"])] (by decide)).2
    ("x-custom", .many ["a", "b"]) (by decide) (by decide) (by decide)

-- ---------------------------------------------------------------------------
-- C2
-- ---------------------------------------------------------------------------

/-- C2: the idempotency middleware stores a response only when its status is
2xx (so a 402 is never stored), and on a hit for the same
(method, path, idempotency-key) it replies with exactly the stored status,
stored headers (the payment-response header, if one was stored) and stored
body, with the rest of the gateway state untouched and independent of the
downstream stages, which therefore never run. -/
theorem claim_C2 {σ : Type} (cache : TtlCache CachedResponse) (now : Nat)
    (req : Request) (s0 : σ) :
    (∀ downstream : Unit → Outcome × σ,
      ¬(200 ≤ (downstream ()).1.status ∧ (downstream ()).1.status < 300) →
      (idempotency cache now req s0 downstream).2.1 = cache) ∧
    (∀ (token : String) (cached : CachedResponse),
      getHeader req "idempotency-key" = some token → token ≠ "" →
      cache.get (idempotencyKey token req.method req.path) now = some cached →
      ∀ downstream : Unit → Outcome × σ,
        idempotency cache now req s0 downstream =
          ({ status := cached.status, headers := cached.headers, body := cached.body },
           cache, s0)) := by
  constructor
  · intro downstream hstat
    unfold idempotency
    by_cases ht : truthyOpt (getHeader req "idempotency-key") = true
    · rw [if_neg (by simp [ht])]
      cases hg : cache.get (idempotencyKey ((getHeader req "idempotency-key").getD "")
          req.method req.path) now with
      | some cached => simp only [hg]
      | none => simp only [hg]; simp [hstat]
    · rw [if_pos (by simp [Bool.eq_false_iff.mpr ht])]
  · intro token cached htok htne hget downstream
    unfold idempotency
    have ht : truthyOpt (getHeader req "idempotency-key") = true := by
      simp [htok, truthyOpt, htne]
    rw [if_neg (by simp [ht]), htok]
    simp only [Option.getD_some]
    rw [hget]

/-- C2 witness: with a stored 200 under idem:GET:/v1/premium/echo:k1, a
second request replays it verbatim even though downstream would respond
402, and the caches are untouched. -/
theorem claim_C2_witness :
    idempotency
        ((TtlCache.empty CachedResponse 600000).set
          (idempotencyKey "k1" "GET" "/v1/premium/echo")
          { status := 200, headers := [("payment-response", "abc")], body := .str "ok" } 0)
        1
        { path := "/v1/premium/echo", method := "GET", protocol := "http"
          headers := [("idempotency-key", "k1")] }
        (0 : Nat)
        (fun _ => ({ status := 402, headers := [], body := .null }, 5)) =
      ({ status := 200, headers := [("payment-response", "abc")], body := .str "ok" },
       (TtlCache.empty CachedResponse 600000).set
         (idempotencyKey "k1" "GET" "/v1/premium/echo")
         { status := 200, headers := [("payment-response", "abc")], body := .str "ok" } 0,
       0) :=
  (claim_C2
    ((TtlCache.empty CachedResponse 600000).set
      (idempotencyKey "k1" "GET" "/v1/premium/echo")
      { status := 200, headers := [("payment-response", "abc")], body := .str "ok" } 0)
    1
    { path := "/v1/premium/echo", method := "GET", protocol := "http"
      headers := [("idempotency-key", "k1")] }
    0).2 "k1"
    { status := 200, headers := [("payment-response", "abc")], body := .str "ok" }
    rfl (by decide) rfl
    (fun _ => ({ status := 402, headers := [], body := .null }, 5))

-- ---------------------------------------------------------------------------
-- C3
-- ---------------------------------------------------------------------------

/-- C3: with a payment-signature header and a validated payload, the replay
guard responds 409 when the nonce key is already cached and otherwise
records the key; the protected pipeline then hands the payment gate the
state with the key already recorded (the final nonce cache contains it for
every facilitator outcome, so the key is consumed before any settlement);
and a second request with the same key within the TTL is rejected 409. -/
theorem claim_C3 (nonceCache : TtlCache Bool) (now : Nat) (raw : Option String)
    (payload : PaymentPayload) (hraw : truthyOpt raw = true) :
    (nonceCache.has (extractNonceKey payload) now = true →
      replayProtection nonceCache now raw (some payload) =
        .respond 409 "Replay detected: payment nonce has already been used") ∧
    (nonceCache.has (extractNonceKey payload) now = false →
      replayProtection nonceCache now raw (some payload) =
        .next (nonceCache.set (extractNonceKey payload) true now)) ∧
    (∀ (decode : String → Option RawPayload) (cfg : Config)
       (policies : List RoutePolicy) (req : Request) (fac : FacilitatorOutcome)
       (handler : Locals → Outcome),
      validateSignature decode cfg policies req = .pass (some payload) →
      getHeader req "payment-signature" = raw →
      nonceCache.has (extractNonceKey payload) now = false →
      (runProtected decode cfg policies req fac now nonceCache handler).2 =
        nonceCache.set (extractNonceKey payload) true now) ∧
    (∀ (now₂ : Nat) (raw₂ : Option String) (payload₂ : PaymentPayload),
      truthyOpt raw₂ = true →
      extractNonceKey payload₂ = extractNonceKey payload →
      now₂ < now + nonceCache.defaultTtlMs →
      replayProtection (nonceCache.set (extractNonceKey payload) true now) now₂
          raw₂ (some payload₂) =
        .respond 409 "Replay detected: payment nonce has already been used") := by
  have hnext : nonceCache.has (extractNonceKey payload) now = false →
      replayProtection nonceCache now raw (some payload) =
        .next (nonceCache.set (extractNonceKey payload) true now) := by
    intro hh
    simp [replayProtection, hraw, hh]
  refine ⟨?_, hnext, ?_, ?_⟩
  · intro hh
    simp [replayProtection, hraw, hh]
  · intro decode cfg policies req fac handler hvs hhdr hh
    simp only [runProtected, hvs, hhdr, hnext hh]
    cases paymentRequired cfg policies req
        { paymentPayload := some payload, receipt := none } fac now with
    | respond out => rfl
    | next locals resHeaders => rfl
  · intro now₂ raw₂ payload₂ hraw₂ hkeyeq hlt
    have hhas : (nonceCache.set (extractNonceKey payload) true now).has
        (extractNonceKey payload₂) now₂ = true := by
      rw [hkeyeq, TtlCache.has, TtlCache.get_set_self,
          if_neg (Nat.not_le.mpr hlt)]
      rfl
    simp [replayProtection, hraw₂, hhas]

/-- C3 witness: after a payment with nonce a:b settles at time 0, the same
payment retried at time 1 is rejected 409. -/
theorem claim_C3_witness :
    replayProtection
        ((TtlCache.empty Bool 300000).set (extractNonceKey payloadColonNonce) true 0)
        1 (some "sig") (some payloadColonNonce) =
      .respond 409 "Replay detected: payment nonce has already been used" :=
  (claim_C3 (TtlCache.empty Bool 300000) 0 (some "sig") payloadColonNonce
    rfl).2.2.2 1 (some "sig") payloadColonNonce rfl rfl (by decide)

-- ---------------------------------------------------------------------------
-- C5
-- ---------------------------------------------------------------------------

/-- C5: on a policy route, once the structural and offer checks pass, the
amount is parsed as an arbitrary-precision integer (BigInt): an unparseable
string is a 400, any amount strictly below the policy minimum is a 400
naming both amounts, and any amount equal or greater is accepted, with the
comparison exact at any magnitude. -/
theorem claim_C5 (decode : String → Option RawPayload) (cfg : Config)
    (policies : List RoutePolicy) (req : Request) (raw : String) (rp : RawPayload)
    (policy : RoutePolicy) (offered : Int)
    (hhdr : getHeader req "payment-signature" = some raw)
    (hraw : raw ≠ "")
    (hdec : decode raw = some rp)
    (hmiss : missingFields rp = [])
    (hver : rp.x402Version = some 2)
    (hpol : findPolicy policies req.path req.method = some policy)
    (hmm : offerMismatches (buildAccept cfg req policy) rp = [])
    (hoff : jsBigIntOfString policy.maxAmountRequired = some offered) :
    (jsBigIntOfString (rp.amount.getD "") = none →
      validateSignature decode cfg policies req =
        .reject 400 "PAYMENT-SIGNATURE amount is not a valid integer string") ∧
    (∀ paid : Int, jsBigIntOfString (rp.amount.getD "") = some paid → paid < offered →
      validateSignature decode cfg policies req =
        .reject 400 ("Insufficient payment: required " ++ policy.maxAmountRequired ++
                     ", got " ++ rp.amount.getD "")) ∧
    (∀ paid : Int, jsBigIntOfString (rp.amount.getD "") = some paid → offered ≤ paid →
      validateSignature decode cfg policies req = .pass (some (toPayload rp))) := by
  have htr2 : truthyOpt (some raw) = true := by
    simp [truthyOpt, hraw]
  have hoffAcc : jsBigIntOfString (buildAccept cfg req policy).maxAmountRequired =
      some offered := hoff
  have hred : validateSignature decode cfg policies req =
      (match jsBigIntOfString (rp.amount.getD "") with
       | none => VsResult.reject 400 "PAYMENT-SIGNATURE amount is not a valid integer string"
       | some paidAmount =>
         if paidAmount < offered then
           VsResult.reject 400 ("Insufficient payment: required " ++
             (buildAccept cfg req policy).maxAmountRequired ++ ", got " ++ rp.amount.getD "")
         else VsResult.pass (some (toPayload rp))) := by
    simp [validateSignature, htr2, hhdr, hdec, hmiss, hver, hpol, hmm, hoffAcc]
  refine ⟨?_, ?_, ?_⟩
  · intro hnone
    rw [hred, hnone]
  · intro paid hp hlt
    rw [hred, hp]
    simp [hlt, buildAccept]
  · intro paid hp hge
    rw [hred, hp]
    simp [Int.not_lt.mpr hge]

/-- C5 witness: against a minimum of 2^64 the payment of 2^64 + 1 is
accepted with the comparison exact beyond 64-bit precision. -/
theorem claim_C5_witness :
    validateSignature bigDecode mockCfg [bigPolicy] bigReq =
      .pass (some (toPayload bigRaw)) :=
  (claim_C5 bigDecode mockCfg [bigPolicy] bigReq "encoded" bigRaw bigPolicy
    18446744073709551616
    rfl (by decide) rfl rfl rfl rfl rfl (by decide)).2.2
    18446744073709551617 (by decide) (by decide)

-- ---------------------------------------------------------------------------
-- C10
-- ---------------------------------------------------------------------------

/-- C10: on a route with no registered policy a payment-signature header is
still structurally validated: a failed decode, a missing required field, or
a version other than 2 each yield a 400, while a structurally well-formed
payload passes through without offer cross-reference or amount check, and
the payment gate then forwards the request unpaid. -/
theorem claim_C10 (decode : String → Option RawPayload) (cfg : Config)
    (policies : List RoutePolicy) (req : Request) (raw : String)
    (hpol : findPolicy policies req.path req.method = none)
    (hhdr : getHeader req "payment-signature" = some raw)
    (hraw : raw ≠ "") :
    (decode raw = none →
      validateSignature decode cfg policies req =
        .reject 400 "PAYMENT-SIGNATURE is not valid base64-encoded JSON") ∧
    (∀ rp : RawPayload, decode raw = some rp → missingFields rp ≠ [] →
      validateSignature decode cfg policies req =
        .reject 400 ("PAYMENT-SIGNATURE missing required fields: " ++
                     String.intercalate ", " (missingFields rp))) ∧
    (∀ rp : RawPayload, decode raw = some rp → missingFields rp = [] →
      rp.x402Version ≠ some 2 →
      validateSignature decode cfg policies req =
        .reject 400 ("Unsupported x402Version: " ++
                     toString (rp.x402Version.getD 0) ++ " (expected 2)")) ∧
    (∀ rp : RawPayload, decode raw = some rp → missingFields rp = [] →
      rp.x402Version = some 2 →
      validateSignature decode cfg policies req = .pass (some (toPayload rp)) ∧
      ∀ (fac : FacilitatorOutcome) (nowMs : Nat) (locals : Locals),
        paymentRequired cfg policies req locals fac nowMs = .next locals []) := by
  have htr2 : truthyOpt (some raw) = true := by simp [truthyOpt, hraw]
  refine ⟨?_, ?_, ?_, ?_⟩
  · intro hnone
    simp [validateSignature, hhdr, htr2, hnone]
  · intro rp hdec hm
    simp [validateSignature, hhdr, htr2, hdec, hm]
  · intro rp hdec hm hv
    simp [validateSignature, hhdr, htr2, hdec, hm, hv]
  · intro rp hdec hm hv
    refine ⟨by simp [validateSignature, hhdr, htr2, hdec, hm, hv, hpol], ?_⟩
    intro fac nowMs locals
    simp [paymentRequired, hpol]

/-- C10 witness: on the policy-less route /free, the well-formed bigRaw
payload passes validation and the gate forwards unpaid. -/
theorem claim_C10_witness :
    validateSignature bigDecode mockCfg []
        { bigReq with path := "/free" } = .pass (some (toPayload bigRaw)) ∧
    paymentRequired mockCfg [] { bigReq with path := "/free" }
        { paymentPayload := some (toPayload bigRaw), receipt := none }
        (.failure "down") 0 =
      .next { paymentPayload := some (toPayload bigRaw), receipt := none } [] := by
  have h := (claim_C10 bigDecode mockCfg [] { bigReq with path := "/free" }
    "encoded" rfl rfl (by decide)).2.2.2 bigRaw rfl rfl rfl
  exact ⟨h.1, h.2 (.failure "down") 0
    { paymentPayload := some (toPayload bigRaw), receipt := none }⟩

-- ---------------------------------------------------------------------------
-- C1
-- ---------------------------------------------------------------------------

/-- C1: for a registered policy, a request to its path and method without a
payment-signature header gets a 402 through the full protected pipeline
(idempotency passing through on no key or a miss): the payment-required
header is base64(JSON) of the PaymentRequirements value with x402Version 2
and the single accept entry carrying the nine policy fields (resource being
base URL plus path), and the JSON body is that same value. -/
theorem claim_C1 (decode : String → Option RawPayload) (cfg : Config)
    (policies : List RoutePolicy) (st : GatewayState) (now : Nat) (req : Request)
    (fac : FacilitatorOutcome) (handler : Locals → Outcome) (policy : RoutePolicy)
    (hpol : findPolicy policies req.path req.method = some policy)
    (hsig : truthyOpt (getHeader req "payment-signature") = false)
    (hidem : truthyOpt (getHeader req "idempotency-key") = false ∨
      st.idemCache.get (idempotencyKey ((getHeader req "idempotency-key").getD "")
        req.method req.path) now = none) :
    (handleRequest decode cfg policies st now req fac handler).1 =
      { status := 402
        headers := [("payment-required",
          toBase64 (buildRequirements (buildAccept cfg req policy)).toJson)]
        body := (buildRequirements (buildAccept cfg req policy)).toJson } ∧
    buildRequirements (buildAccept cfg req policy) =
      { x402Version := 2
        accepts := [{ scheme := policy.scheme
                      network := policy.network
                      maxAmountRequired := policy.maxAmountRequired
                      resource := requestBase cfg req ++ policy.path
                      description := policy.description
                      mimeType := policy.mimeType
                      payTo := policy.payTo
                      maxTimeoutSeconds := policy.maxTimeoutSeconds
                      asset := policy.asset
                      extra := policy.extra }] } := by
  have hvs : validateSignature decode cfg policies req = .pass none := by
    simp [validateSignature, hsig]
  have hrp : replayProtection st.nonceCache now (getHeader req "payment-signature")
      none = .next st.nonceCache := by
    simp [replayProtection, hsig]
  have hgate : paymentRequired cfg policies req
      { paymentPayload := none, receipt := none } fac now =
      .respond { status := 402
                 headers := [("payment-required",
                   toBase64 (buildRequirements (buildAccept cfg req policy)).toJson)]
                 body := (buildRequirements (buildAccept cfg req policy)).toJson } := by
    simp [paymentRequired, hpol]
  have hrun : runProtected decode cfg policies req fac now st.nonceCache handler =
      ({ status := 402
         headers := [("payment-required",
           toBase64 (buildRequirements (buildAccept cfg req policy)).toJson)]
         body := (buildRequirements (buildAccept cfg req policy)).toJson },
       st.nonceCache) := by
    simp only [runProtected, hvs, hrp, hgate]
  refine ⟨?_, rfl⟩
  rcases hidem with h | h
  · simp [handleRequest, idempotency, h, hrun]
  · by_cases ht : truthyOpt (getHeader req "idempotency-key") = true
    · simp [handleRequest, idempotency, ht, h, hrun]
    · simp [handleRequest, idempotency, Bool.eq_false_iff.mpr ht, hrun]

/-- C1 witness: the 402 at a concrete policy, request without signature and
empty caches. -/
theorem claim_C1_witness :
    (handleRequest bigDecode mockCfg [samplePolicy]
        { idemCache := TtlCache.empty CachedResponse 600000
          nonceCache := TtlCache.empty Bool 300000 }
        0
        { path := "/v1/premium/echo", method := "GET", protocol := "http", headers := [] }
        (.failure "down") (fun _ => { status := 200, headers := [], body := .null })).1 =
      { status := 402
        headers := [("payment-required",
          toBase64 (buildRequirements (buildAccept mockCfg
            { path := "/v1/premium/echo", method := "GET", protocol := "http", headers := [] }
            samplePolicy)).toJson)]
        body := (buildRequirements (buildAccept mockCfg
          { path := "/v1/premium/echo", method := "GET", protocol := "http", headers := [] }
          samplePolicy)).toJson } :=
  (claim_C1 bigDecode mockCfg [samplePolicy]
    { idemCache := TtlCache.empty CachedResponse 600000
      nonceCache := TtlCache.empty Bool 300000 }
    0
    { path := "/v1/premium/echo", method := "GET", protocol := "http", headers := [] }
    (.failure "down") (fun _ => { status := 200, headers := [], body := .null })
    samplePolicy rfl rfl (Or.inl rfl)).1

end Moltgate
